import Mathlib

/-!
Verification development for the carbon-footprint CLI
(`src/carbon-footprint-cli/src/main.rs`).

The embedding follows the Rust source:

* `Json` is a generic structured document (the image of `serde_json::Value`);
  numeric leaves are modelled as `Int` because no property under study
  depends on floating-point values, only on field presence and shape.
* `Leg`, `FlightEstimateRequest`, `FlightEstimateResponse`, `EstimateData`,
  `EstimateAttributes` mirror the `serde` structs.
* `parseFlightEstimateResponse` embeds the `serde` derive semantics used by
  `serde_json::from_str::<FlightEstimateResponse>`: unknown fields are
  ignored, `#[serde(default)]` makes `data`/`message` default to `None`
  when absent, JSON `null` maps to `None`, and a present field of the wrong
  shape fails the whole decode.
* `interpretResponse` is the pure core of `make_estimates_request`: the
  branch structure applied to an already-received body.
* `serializeLeg` / `serializeRequest` embed the `#[derive(Serialize)]`
  output, with `#[serde(skip_serializing_if = "Option::is_none")]` on
  `cabin_class` and `distance_unit` and `#[serde(rename = "type")]` on
  `estimate_type`.
* `get_user_input` embeds the prompt loop over an explicit list of raw
  input lines (the Rust loop reads stdin; exhausting the list models an
  operator who never supplies a valid line, i.e. the loop not returning).
* `get_flight_details` embeds the interactive itinerary builder, threading
  the remaining input lines.
-/

inductive Json where
  | null : Json
  | bool (b : Bool) : Json
  | num (n : Int) : Json
  | str (s : String) : Json
  | arr (xs : List Json) : Json
  | obj (fields : List (String × Json)) : Json

namespace Json

/-- Look up the first binding of key `k` in an object; `none` for a missing
key or a non-object. -/
def lookup (j : Json) (k : String) : Option Json :=
  match j with
  | .obj fields => fields.lookup k
  | _ => none

end Json

/-- Mirrors the Rust struct `Leg`. -/
structure Leg where
  departure_airport : String
  destination_airport : String
  cabin_class : Option String
deriving Repr, DecidableEq

/-- Mirrors the Rust struct `FlightEstimateRequest` (`estimate_type` is
serialized under the key `"type"`). -/
structure FlightEstimateRequest where
  estimate_type : String
  passengers : Nat
  legs : List Leg
  distance_unit : Option String
deriving Repr, DecidableEq

/-- Mirrors the Rust struct `EstimateAttributes`; the four carbon fields and
`distance_value` are `f32` in the source, modelled as `Int` (shape only). -/
structure EstimateAttributes where
  carbon_g : Int
  carbon_lb : Int
  carbon_kg : Int
  carbon_mt : Int
  distance_unit : String
  distance_value : Int
deriving Repr, DecidableEq

/-- Mirrors the Rust struct `EstimateData`. -/
structure EstimateData where
  attributes : EstimateAttributes
deriving Repr, DecidableEq

/-- Mirrors the Rust struct `FlightEstimateResponse`: both fields carry
`#[serde(default)]`. -/
structure FlightEstimateResponse where
  data : Option EstimateData
  message : Option String
deriving Repr, DecidableEq

/-- Mirrors the Rust enum `CliError`. The payloads of `NetworkError` and
`UnexpectedResponseFormat` are opaque library errors in the source and are
dropped here. -/
inductive CliError where
  | NetworkError : CliError
  | UnexpectedResponseFormat : CliError
  | ApiError (msg : String) : CliError
deriving Repr, DecidableEq

/-- Serde decode of a JSON value at type `f32`-like number: any JSON number. -/
def parseNum (j : Json) : Option Int :=
  match j with
  | .num n => some n
  | _ => none

/-- Serde decode of a JSON value at type `String`. -/
def parseStr (j : Json) : Option String :=
  match j with
  | .str s => some s
  | _ => none

/-- Serde decode of `EstimateAttributes`: all six fields required. -/
def parseEstimateAttributes (j : Json) : Option EstimateAttributes :=
  match j with
  | .obj _ => do
    let g ← (j.lookup "carbon_g").bind parseNum
    let lb ← (j.lookup "carbon_lb").bind parseNum
    let kg ← (j.lookup "carbon_kg").bind parseNum
    let mt ← (j.lookup "carbon_mt").bind parseNum
    let du ← (j.lookup "distance_unit").bind parseStr
    let dv ← (j.lookup "distance_value").bind parseNum
    pure ⟨g, lb, kg, mt, du, dv⟩
  | _ => none

/-- Serde decode of `EstimateData`: the `attributes` field is required. -/
def parseEstimateData (j : Json) : Option EstimateData :=
  match j with
  | .obj _ => do
    let a ← (j.lookup "attributes").bind parseEstimateAttributes
    pure ⟨a⟩
  | _ => none

/-- Serde decode of an `Option` field that carries `#[serde(default)]`:
absent or `null` gives `none`; a present non-null value must decode. -/
def parseOptField {α : Type} (field : Option Json) (p : Json → Option α) :
    Option (Option α) :=
  match field with
  | none => some none
  | some .null => some none
  | some v => (p v).map some

/-- Serde decode of `FlightEstimateResponse`
(`serde_json::from_str::<FlightEstimateResponse>` applied to an already
lexed document): a struct decodes from an object, unknown fields are
ignored, and both fields default to `None` when absent. -/
def parseFlightEstimateResponse (j : Json) : Option FlightEstimateResponse :=
  match j with
  | .obj _ => do
    let d ← parseOptField (j.lookup "data") parseEstimateData
    let m ← parseOptField (j.lookup "message") parseStr
    pure ⟨d, m⟩
  | _ => none

/-- The pure core of `make_estimates_request` (main.rs lines 115–140): how
an already-received, already-lexed response body is interpreted. A body
that fails to decode as `FlightEstimateResponse` yields
`UnexpectedResponseFormat`; otherwise a present `message` wins, then a
present `data`, and finally `ApiError "Missing response data"`. -/
def interpretResponse (body : Json) : Except CliError FlightEstimateResponse :=
  match parseFlightEstimateResponse body with
  | none => .error .UnexpectedResponseFormat
  | some response =>
    match response.message with
    | some error_message => .error (.ApiError error_message)
    | none =>
      match response.data with
      | some d => .ok ⟨some d, none⟩
      | none => .error (.ApiError "Missing response data")

/-- Rust `str::parse::<u32>`: an optional leading `+` sign, then one or
more ASCII digits, value below `2 ^ 32`; anything else fails. -/
def parseU32 (s : String) : Option Nat :=
  let cs := s.data
  let ds := match cs with
    | '+' :: rest => rest
    | _ => cs
  if ds.isEmpty then none
  else if ds.all Char.isDigit then
    let v := ds.foldl (fun acc c => acc * 10 + (c.toNat - 48)) 0
    if v < 2 ^ 32 then some v else none
  else none

/-- Rust `str::parse::<usize>` on a 64-bit target: like `parseU32` with the
bound `2 ^ 64`. -/
def parseUsize (s : String) : Option Nat :=
  let cs := s.data
  let ds := match cs with
    | '+' :: rest => rest
    | _ => cs
  if ds.isEmpty then none
  else if ds.all Char.isDigit then
    let v := ds.foldl (fun acc c => acc * 10 + (c.toNat - 48)) 0
    if v < 2 ^ 64 then some v else none
  else none

/-- The passenger-count closure passed to `get_user_input`:
`input.parse::<u32>().is_ok()`. -/
def passengersValidator (input : String) : Bool :=
  (parseU32 input).isSome

/-- The leg-count closure: `input.parse::<usize>().is_ok()`. -/
def legsValidator (input : String) : Bool :=
  (parseUsize input).isSome

/-- The airport-code closure:
`input.chars().all(|c| c.is_ascii_uppercase()) && input.len() == 3`.
(`Char.isUpper` is exactly ASCII `A`–`Z`; when every char is ASCII the Rust
byte length equals the char count, and otherwise the first conjunct is
already false.) -/
def iataValidator (input : String) : Bool :=
  input.data.all Char.isUpper && input.data.length == 3

/-- The cabin-class closure:
`input.is_empty() || ["economy", "premium"].contains(&input)`. -/
def cabinValidator (input : String) : Bool :=
  input.isEmpty || input == "economy" || input == "premium"

/-- Rust `str::trim`: drop leading and trailing whitespace characters.
(Rust uses the Unicode whitespace property; `Char.isWhitespace` covers its
ASCII subset, which coincides on the inputs in scope.) -/
def rustTrim (s : String) : String :=
  ⟨((s.data.dropWhile Char.isWhitespace).reverse.dropWhile
      Char.isWhitespace).reverse⟩

/-- `get_user_input` (main.rs lines 235–250) over an explicit list of raw
stdin lines: each iteration takes one line, trims it, and returns it
together with the unread rest when it is non-empty and the validator
accepts it, otherwise prints the error message and loops. `none` models
the loop still running when the listed lines are exhausted. -/
def get_user_input (validator : String → Bool) :
    List String → Option (String × List String)
  | [] => none
  | line :: rest =>
    let input := rustTrim line
    if !input.isEmpty && validator input then some (input, rest)
    else get_user_input validator rest

/-- The per-leg block of the `for` loop in `get_flight_details`: departure
code, destination code, cabin class, then the constructed `Leg` whose
`cabin_class` is `Some(...)` with the empty string replaced by
`"economy"`. -/
def get_leg (stdin : List String) : Option (Leg × List String) := do
  let (departure_airport, stdin) ← get_user_input iataValidator stdin
  let (destination_airport, stdin) ← get_user_input iataValidator stdin
  let (cabin_class, stdin) ← get_user_input cabinValidator stdin
  pure (⟨departure_airport, destination_airport,
    some (if cabin_class.isEmpty then "economy" else cabin_class)⟩, stdin)

/-- The `for i in 0..number_of_legs` loop of `get_flight_details`,
accumulating legs in order. -/
def get_legs : Nat → List String → Option (List Leg × List String)
  | 0, stdin => some ([], stdin)
  | n + 1, stdin => do
    let (leg, stdin) ← get_leg stdin
    let (legs, stdin) ← get_legs n stdin
    pure (leg :: legs, stdin)

/-- `get_flight_details` (main.rs lines 142–188): passenger count, leg
count, then the legs; returns the pair the Rust function returns, plus the
unread input lines. The `.unwrap()`ed re-parses cannot fail because the
validators just accepted the same strings. -/
def get_flight_details (stdin : List String) :
    Option ((Nat × List Leg) × List String) := do
  let (p, stdin) ← get_user_input passengersValidator stdin
  let passengers ← parseU32 p
  let (n, stdin) ← get_user_input legsValidator stdin
  let number_of_legs ← parseUsize n
  let (legs, stdin) ← get_legs number_of_legs stdin
  pure ((passengers, legs), stdin)

/-- The request constructed in `main` (lines 200–208): type tag
`"flight"`, the collected passengers and legs, and `distance_unit: None`
written literally in the source. -/
def build_request (passengers : Nat) (legs : List Leg) : FlightEstimateRequest :=
  { estimate_type := "flight"
    passengers := passengers
    legs := legs
    distance_unit := none }

/-- `#[derive(Serialize)]` output for `Leg`: fields in declaration order,
`cabin_class` omitted when `None`
(`#[serde(skip_serializing_if = "Option::is_none")]`). -/
def serializeLeg (l : Leg) : Json :=
  .obj ([("departure_airport", .str l.departure_airport),
         ("destination_airport", .str l.destination_airport)] ++
    match l.cabin_class with
    | some c => [("cabin_class", .str c)]
    | none => [])

/-- `#[derive(Serialize)]` output for `FlightEstimateRequest`:
`estimate_type` renamed to `"type"`, `distance_unit` omitted when
`None`. -/
def serializeRequest (r : FlightEstimateRequest) : Json :=
  .obj ([("type", .str r.estimate_type),
         ("passengers", .num (r.passengers : Int)),
         ("legs", .arr (r.legs.map serializeLeg))] ++
    match r.distance_unit with
    | some u => [("distance_unit", .str u)]
    | none => [])


/-- The undocumented-error body of spec Scenario C: an `errors` array of
objects carrying `detail` strings, with no `data` and no `message`. -/
def errorsBody : Json :=
  .obj [("errors", .arr
    [.obj [("detail", .str "Validation failed: Legs require valid airport codes")],
     .obj [("detail", .str "These IATA codes are invalid: [\"XYZ\"]")]])]

/-- A response body carrying both a `message` and a well-formed `data`
payload. -/
def messageAndDataBody : Json :=
  .obj [("data", .obj [("attributes", .obj
           [("carbon_g", .num 99911700), ("carbon_lb", .num 267),
            ("carbon_kg", .num 99911), ("carbon_mt", .num 99),
            ("distance_unit", .str "km"), ("distance_value", .num 5660)])]),
        ("message", .str "Validation failed: Legs require valid airport codes")]

/-- Behaviour of the prompt loop whenever it returns: the returned string
is the trimmed form of one of the supplied lines, is non-empty, and passes
the validator. -/
theorem get_user_input_some (validator : String → Bool) (stdin : List String) :
    ∀ s rest, get_user_input validator stdin = some (s, rest) →
      s.isEmpty = false ∧ validator s = true ∧
        ∃ line ∈ stdin, s = rustTrim line := by
  induction stdin with
  | nil => intro s rest h; simp [get_user_input] at h
  | cons line more ih =>
    intro s rest h
    rw [get_user_input] at h
    by_cases hc : (!(rustTrim line).isEmpty && validator (rustTrim line)) = true
    · rw [if_pos hc] at h
      injection h with h
      obtain ⟨h1, _⟩ := Prod.mk.inj h
      subst h1
      simp only [Bool.and_eq_true, Bool.not_eq_true'] at hc
      exact ⟨hc.1, hc.2, line, List.mem_cons_self _ _, rfl⟩
    · rw [if_neg hc] at h
      obtain ⟨h1, h2, line2, hmem, hline⟩ := ih s rest h
      exact ⟨h1, h2, line2, List.mem_cons_of_mem _ hmem, hline⟩

/-- Values produced by `parseU32` fit in 32 bits. -/
theorem parseU32_some_lt (s : String) (v : Nat) (h : parseU32 s = some v) :
    v < 2 ^ 32 := by
  simp only [parseU32] at h
  split at h
  · exact absurd h (by simp)
  · split at h
    · split at h
      · cases h; assumption
      · exact absurd h (by simp)
    · exact absurd h (by simp)

/-- Every leg built by the per-leg block carries `some` cabin class: the
source wraps the field in `Some(...)` unconditionally. -/
theorem get_leg_cabin (stdin : List String) (l : Leg) (rest : List String)
    (h : get_leg stdin = some (l, rest)) :
    ∃ c, l.cabin_class = some c := by
  simp only [get_leg, Option.pure_def, Option.bind_eq_bind,
    Option.bind_eq_some] at h
  obtain ⟨⟨dep, s1⟩, _, h⟩ := h
  obtain ⟨⟨dest, s2⟩, _, h⟩ := h
  obtain ⟨⟨cab, s3⟩, _, h⟩ := h
  injection h with h
  obtain ⟨h1, _⟩ := Prod.mk.inj h
  subst h1
  exact ⟨_, rfl⟩

/-- The leg loop preserves the `some`-cabin invariant over all legs. -/
theorem get_legs_cabin (n : Nat) : ∀ stdin legs rest,
    get_legs n stdin = some (legs, rest) →
    ∀ l ∈ legs, ∃ c, l.cabin_class = some c := by
  induction n with
  | zero =>
    intro stdin legs rest h l hl
    simp only [get_legs] at h
    injection h with h
    obtain ⟨h1, _⟩ := Prod.mk.inj h
    subst h1
    simp at hl
  | succ n ih =>
    intro stdin legs rest h l hl
    simp only [get_legs, Option.pure_def, Option.bind_eq_bind,
      Option.bind_eq_some] at h
    obtain ⟨⟨leg, s1⟩, h1, h⟩ := h
    obtain ⟨⟨legs2, s2⟩, h2, h⟩ := h
    injection h with h
    obtain ⟨h3, _⟩ := Prod.mk.inj h
    subst h3
    rcases List.mem_cons.mp hl with rfl | hmem
    · exact get_leg_cabin _ _ _ h1
    · exact ih _ _ _ h2 l hmem

/-- C1: refuted. The interpreter never joins `detail` strings: on the
Scenario C errors body it does not produce the "; "-joined message the
claim requires. -/
theorem c1_errors_join_counterexample :
    interpretResponse errorsBody ≠
      Except.error (CliError.ApiError
        "Validation failed: Legs require valid airport codes; These IATA codes are invalid: [\"XYZ\"]") := by
  intro h
  rw [show interpretResponse errorsBody =
        Except.error (CliError.ApiError "Missing response data") from rfl] at h
  injection h with h
  injection h with h
  exact absurd h (by decide)

/-- C1 (amended): the interpreter has no errors tier. Any object body
whose `data` and `message` lookups are absent — whatever other fields,
such as `errors`, it carries — decodes with both envelope fields `None`
and yields `ApiError "Missing response data"`. -/
theorem c1_errors_ignored_missing_data (fields : List (String × Json))
    (hd : (Json.obj fields).lookup "data" = none)
    (hm : (Json.obj fields).lookup "message" = none) :
    interpretResponse (.obj fields) =
      .error (.ApiError "Missing response data") := by
  simp [interpretResponse, parseFlightEstimateResponse, parseOptField, hd, hm]

/-- C1 (amended) at the Scenario C body. -/
theorem c1_errors_ignored_missing_data_witness :
    interpretResponse errorsBody =
      .error (.ApiError "Missing response data") :=
  c1_errors_ignored_missing_data _ rfl rfl

/-- C2: when the decoded envelope has a message, the outcome is
`ApiError` with that message, whatever the `data` field holds: the
message branch is taken first. -/
theorem c2_message_precedes_data (j : Json) (r : FlightEstimateResponse)
    (m : String) (hp : parseFlightEstimateResponse j = some r)
    (hm : r.message = some m) :
    interpretResponse j = .error (.ApiError m) := by
  simp [interpretResponse, hp, hm]

/-- C2 at a body carrying both a message and a well-formed data payload. -/
theorem c2_message_precedes_data_witness :
    interpretResponse messageAndDataBody =
      .error (.ApiError "Validation failed: Legs require valid airport codes") :=
  c2_message_precedes_data messageAndDataBody
    ⟨some ⟨⟨99911700, 267, 99911, 99, "km", 5660⟩⟩,
     some "Validation failed: Legs require valid airport codes"⟩
    "Validation failed: Legs require valid airport codes" rfl rfl

/-- C6: the body `{}` parses with neither field, and the interpreter
returns `ApiError "Missing response data"`. -/
theorem c6_empty_body_missing_data :
    interpretResponse (.obj []) =
      .error (.ApiError "Missing response data") := rfl

/-- C10: a present-but-empty message is handled like any other message:
the outcome is `ApiError ""`, not the data branch and not
`"Missing response data"`. -/
theorem c10_empty_message_api_error (j : Json) (r : FlightEstimateResponse)
    (hp : parseFlightEstimateResponse j = some r)
    (hm : r.message = some "") :
    interpretResponse j = .error (.ApiError "") := by
  simp [interpretResponse, hp, hm]

/-- C10 at the body with a literally empty message string. -/
theorem c10_empty_message_api_error_witness :
    interpretResponse (.obj [("message", .str "")]) =
      .error (.ApiError "") :=
  c10_empty_message_api_error (.obj [("message", .str "")])
    ⟨none, some ""⟩ rfl rfl

/-- C3: code bug witnessed. The cabin validator itself accepts the empty
string (the source's prompt documents "optional, defaults to economy"),
but `get_user_input` rejects every blank line before consulting the
validator, so a blank cabin entry is re-prompted — the economy default is
only ever substituted for an input the loop cannot return. -/
theorem c3_blank_cabin_reprompted :
    cabinValidator "" = true ∧
    get_user_input cabinValidator [""] = none ∧
    get_user_input cabinValidator ["", "premium"] = some ("premium", []) := by
  decide

/-- C4: refuted. The passenger validator is u32-parseability, not
positivity: the input "0" is accepted on the spot (no re-prompt) and a
passenger count of zero is stored in the itinerary. -/
theorem c4_zero_accepted_counterexample :
    get_user_input passengersValidator ["0"] = some ("0", []) ∧
    parseU32 "0" = some 0 ∧
    get_flight_details ["0", "0"] = some ((0, []), []) := by
  decide

/-- C4 (amended): every input the passenger predicate accepts parses as a
32-bit unsigned integer — a non-negative value below `2 ^ 32`, zero
included. -/
theorem c4_passengers_u32_parseable (stdin : List String) (s : String)
    (rest : List String)
    (h : get_user_input passengersValidator stdin = some (s, rest)) :
    ∃ v, parseU32 s = some v ∧ v < 2 ^ 32 := by
  obtain ⟨-, hv, -⟩ := get_user_input_some passengersValidator stdin s rest h
  simp only [passengersValidator, Option.isSome_iff_exists] at hv
  obtain ⟨v, hv⟩ := hv
  exact ⟨v, hv, parseU32_some_lt s v hv⟩

/-- C4 (amended) at the accepted input "5". -/
theorem c4_passengers_u32_parseable_witness :
    ∃ v, parseU32 "5" = some v ∧ v < 2 ^ 32 :=
  c4_passengers_u32_parseable ["5"] "5" [] (by decide)

/-- C5: refuted. The builder never prompts for a distance unit: a
supplied "km" line is left unread after all legs are collected, and the
request built in `main` carries no distance unit. -/
theorem c5_distance_unit_counterexample :
    get_flight_details ["1", "1", "LHR", "JFK", "economy", "km"] =
      some ((1, [⟨"LHR", "JFK", some "economy"⟩]), ["km"]) ∧
    (build_request 1 [⟨"LHR", "JFK", some "economy"⟩]).distance_unit =
      none := by
  decide

/-- C5 (amended): no distance unit is collected; every request `main`
builds has `distance_unit` unset. -/
theorem c5_request_distance_unit_none (passengers : Nat) (legs : List Leg) :
    (build_request passengers legs).distance_unit = none := rfl

/-- C7: serialization omits absent optional fields and emits the set
ones: with `distance_unit` unset and every leg's `cabin_class` unset, the
wire object has no `distance_unit` key and no leg object has a
`cabin_class` key, while `type`, `passengers`, `legs` and both airport
codes are present. -/
theorem c7_absent_optional_omitted (r : FlightEstimateRequest)
    (hdu : r.distance_unit = none)
    (hcc : ∀ l ∈ r.legs, l.cabin_class = none) :
    (serializeRequest r).lookup "distance_unit" = none ∧
    (∀ l ∈ r.legs, (serializeLeg l).lookup "cabin_class" = none) ∧
    (serializeRequest r).lookup "type" = some (.str r.estimate_type) ∧
    (serializeRequest r).lookup "passengers" =
      some (.num (r.passengers : Int)) ∧
    (serializeRequest r).lookup "legs" =
      some (.arr (r.legs.map serializeLeg)) ∧
    ∀ l ∈ r.legs,
      (serializeLeg l).lookup "departure_airport" =
        some (.str l.departure_airport) ∧
      (serializeLeg l).lookup "destination_airport" =
        some (.str l.destination_airport) := by
  obtain ⟨et, p, legs, du⟩ := r
  simp only at hdu
  subst hdu
  refine ⟨rfl, ?_, rfl, rfl, rfl, ?_⟩
  · intro l hl
    have hc := hcc l hl
    obtain ⟨d, a, cc⟩ := l
    simp only at hc
    subst hc
    rfl
  · intro l hl
    obtain ⟨d, a, cc⟩ := l
    exact ⟨rfl, rfl⟩

/-- C7 at a one-leg request with both optionals unset. -/
theorem c7_absent_optional_omitted_witness :
    (serializeRequest ⟨"flight", 2, [⟨"LHR", "JFK", none⟩], none⟩).lookup
        "distance_unit" = none ∧
    (∀ l ∈ [(⟨"LHR", "JFK", none⟩ : Leg)],
      (serializeLeg l).lookup "cabin_class" = none) ∧
    (serializeRequest ⟨"flight", 2, [⟨"LHR", "JFK", none⟩], none⟩).lookup
        "type" = some (.str "flight") ∧
    (serializeRequest ⟨"flight", 2, [⟨"LHR", "JFK", none⟩], none⟩).lookup
        "passengers" = some (.num 2) ∧
    (serializeRequest ⟨"flight", 2, [⟨"LHR", "JFK", none⟩], none⟩).lookup
        "legs" =
      some (.arr ([(⟨"LHR", "JFK", none⟩ : Leg)].map serializeLeg)) ∧
    ∀ l ∈ [(⟨"LHR", "JFK", none⟩ : Leg)],
      (serializeLeg l).lookup "departure_airport" =
        some (.str l.departure_airport) ∧
      (serializeLeg l).lookup "destination_airport" =
        some (.str l.destination_airport) :=
  c7_absent_optional_omitted ⟨"flight", 2, [⟨"LHR", "JFK", none⟩], none⟩
    rfl (by decide)

/-- C8: whenever the prompt loop returns, the returned string is the
trimmed form of one of the supplied lines, is non-empty, and satisfies
the validator — so an input the predicate rejects (for instance an IATA
entry not matching three uppercase letters) is never returned. -/
theorem c8_collect_postcondition (validator : String → Bool)
    (stdin : List String) (s : String) (rest : List String)
    (h : get_user_input validator stdin = some (s, rest)) :
    s.isEmpty = false ∧ validator s = true ∧
      ∃ line ∈ stdin, s = rustTrim line :=
  get_user_input_some validator stdin s rest h

/-- C8 for the IATA field with a rejected line followed by a padded valid
one. -/
theorem c8_collect_postcondition_witness :
    ("LHR" : String).isEmpty = false ∧ iataValidator "LHR" = true ∧
      ∃ line ∈ [("xy" : String), " LHR "], "LHR" = rustTrim line :=
  c8_collect_postcondition iataValidator ["xy", " LHR "] "LHR" []
    (by decide)

/-- C9: every leg the interactive builder produces has `cabin_class` set
to `some` value, and its serialized object therefore always carries a
`cabin_class` key — the omit-when-absent path is unreachable from the
builder. -/
theorem c9_builder_cabin_always_some (stdin : List String) (p : Nat)
    (legs : List Leg) (rest : List String)
    (h : get_flight_details stdin = some ((p, legs), rest)) :
    ∀ l ∈ legs, ∃ c, l.cabin_class = some c ∧
      (serializeLeg l).lookup "cabin_class" = some (.str c) := by
  simp only [get_flight_details, Option.pure_def, Option.bind_eq_bind,
    Option.bind_eq_some] at h
  obtain ⟨⟨ps, s1⟩, _, h⟩ := h
  obtain ⟨pv, _, h⟩ := h
  obtain ⟨⟨ns, s2⟩, _, h⟩ := h
  obtain ⟨nv, _, h⟩ := h
  obtain ⟨⟨legs2, s3⟩, hlegs, h⟩ := h
  injection h with h
  obtain ⟨h1, _⟩ := Prod.mk.inj h
  obtain ⟨_, h2⟩ := Prod.mk.inj h1
  subst h2
  intro l hl
  obtain ⟨c, hc⟩ := get_legs_cabin nv s2 legs2 s3 hlegs l hl
  refine ⟨c, hc, ?_⟩
  obtain ⟨d, a, cc⟩ := l
  simp only at hc
  subst hc
  rfl

/-- C9 at a one-leg interactive session, instantiated at its single leg. -/
theorem c9_builder_cabin_always_some_witness :
    ∃ c, (⟨"LHR", "JFK", some "economy"⟩ : Leg).cabin_class = some c ∧
      (serializeLeg ⟨"LHR", "JFK", some "economy"⟩).lookup "cabin_class" =
        some (.str c) :=
  c9_builder_cabin_always_some ["1", "1", "LHR", "JFK", "economy"] 1
    [⟨"LHR", "JFK", some "economy"⟩] [] (by decide)
    ⟨"LHR", "JFK", some "economy"⟩ (by decide)
